import Mathlib

/-!
Verification of the Mastodon.py request-execution core (src/mastodon/Mastodon.py).

The Python source is shallowly embedded: JSON values become the inductive
`JValue`, Python dicts become association lists over `String` keys, Python
exceptions become the error type `MErr` carried by `Except`, wall-clock time
values become `Rat`, and the network is modelled by a list of scripted
`Response` values consumed one per HTTP attempt.  Every `time.sleep` call is
recorded in an output trace instead of being performed.
-/

set_option autoImplicit false

/-- JSON-ish values as they appear inside the client after decoding.
`date` models a parsed `datetime` instant (epoch seconds), `obj` a plain
Python dict, and `wrapped` an `AttribAccessDict` (the attribute-access view).
Non-integral JSON numbers do not occur in any modelled code path and are
omitted. -/
inductive JValue where
  | null
  | bool (b : Bool)
  | int (n : Int)
  | str (s : String)
  | date (t : Int)
  | arr (elems : List JValue)
  | obj (fields : List (String × JValue))
  | wrapped (fields : List (String × JValue))

/-- Python dicts with string keys, in insertion order. -/
abbrev Dict := List (String × JValue)

/-- The exceptions the embedded code can raise.  The `Mastodon*Error`
hierarchy of the source is flattened into constructors; plain Python
exceptions (`KeyError`, `TypeError`, `ValueError`, `IndexError`) that can
escape the modelled code get their own constructors.  `noMoreResponses`
is an artefact of the scripted-network model: it is returned when a retry
loop runs past the end of the scripted response list. -/
inductive MErr where
  | versionError (msg : String)
  | illegalArgumentError (msg : String)
  | networkError (msg : String)
  | apiError (msg : String)
  | apiStatusError (status : Nat) (errMsg : Option JValue)
  | notFoundError (status : Nat) (errMsg : Option JValue)
  | unauthorizedError (status : Nat) (errMsg : Option JValue)
  | ratelimitError (msg : String)
  | attributeError (msg : String)
  | keyError (k : String)
  | typeError
  | valueError
  | indexError
  | noMoreResponses

/-! ## Dict primitives (Python dict semantics on association lists) -/

/-- `k in d` for a Python dict. -/
def containsKey : Dict → String → Bool
  | [], _ => false
  | p :: rest, k => p.1 == k || containsKey rest k

/-- `d[k]` lookup (first matching entry; a dict built by the modelled code
never holds duplicate keys). -/
def dictLookup : Dict → String → Option JValue
  | [], _ => none
  | p :: rest, k => if p.1 == k then some p.2 else dictLookup rest k

/-- `d[k] = v`: replaces the value of the (unique) matching entry in place
when the key is present, appends a fresh entry otherwise (Python dicts
keep insertion order). -/
def dictSet : Dict → String → JValue → Dict
  | [], k, v => [(k, v)]
  | p :: rest, k, v => if p.1 == k then (k, v) :: rest else p :: dictSet rest k v

/-- `if k in d: del d[k]` — removal that is a no-op when the key is absent. -/
def dictDel : Dict → String → Dict
  | [], _ => []
  | p :: rest, k => if p.1 == k then dictDel rest k else p :: dictDel rest k

/-! ## Character-list string helpers

The Python code uses `str.split`, `re.match`/`re.search` with the patterns
`([0-9]*)`, `max_id=([0-9]*)`, `since_id=([0-9]*)`, and `int(...)`.  These
are modelled structurally on `List Char` so that everything reduces in the
kernel. -/

/-- `s.split(".")` restricted to the single-character separator used by the
source. -/
def splitOnDot (s : List Char) : List (List Char) :=
  s.foldr
    (fun c acc =>
      if c = '.' then [] :: acc
      else
        match acc with
        | g :: gs => (c :: g) :: gs
        | [] => [[c]])
    [[]]

/-- Numeric value of a digit string. -/
def digitsVal (ds : List Char) : Nat :=
  ds.foldl (fun n c => n * 10 + (c.toNat - 48)) 0

/-- `int(re.match("([0-9]*)", s)[0])`: the regex always matches a (possibly
empty) leading digit run; `int` of the empty string raises `ValueError`. -/
def leadingInt (s : List Char) : Except MErr Nat :=
  let ds := s.takeWhile Char.isDigit
  if ds.isEmpty then Except.error MErr.valueError else Except.ok (digitsVal ds)

/-- `l[i]` on a Python list: `IndexError` when out of range. -/
def pyIndex {α : Type} (l : List α) (i : Nat) : Except MErr α :=
  match l.get? i with
  | some x => Except.ok x
  | none => Except.error MErr.indexError

/-- If `pat` is a prefix of `s`, the remainder of `s` after it. -/
def dropPrefixL : List Char → List Char → Option (List Char)
  | s, [] => some s
  | [], _ :: _ => none
  | c :: s, p :: ps => if c = p then dropPrefixL s ps else none

/-- The remainder of `s` after the first occurrence of `pat`
(`re.search` positioning). -/
def findAfterL : List Char → List Char → Option (List Char)
  | [], pat => dropPrefixL [] pat
  | s@(_ :: rest), pat =>
    match dropPrefixL s pat with
    | some r => some r
    | none => findAfterL rest pat

/-- `int(s)` on a full string: optional sign, then digits only
(whitespace/underscore tolerance of Python `int` is irrelevant for the
identifier strings at issue). -/
def pyInt? (s : List Char) : Option Int :=
  match s with
  | '-' :: rest =>
    if rest ≠ [] ∧ rest.all Char.isDigit then some (-(Int.ofNat (digitsVal rest))) else none
  | _ =>
    if s ≠ [] ∧ s.all Char.isDigit then some (Int.ofNat (digitsVal s)) else none

/-! ## Version parsing and the version gate (source lines 31-61) -/

/-- `parse_version_string`: split on dots, take the leading digit run of the
first three components.  Evaluation order matches Python: component `i` is
indexed and converted before component `i+1` is indexed, so `"abc"` fails
with `ValueError` (from `int("")`) before any `IndexError` could occur. -/
def parse_version_string (s : String) : Except MErr (Nat × Nat × Nat) := do
  let parts := splitOnDot s.data
  let p0 ← pyIndex parts 0
  let a ← leadingInt p0
  let p1 ← pyIndex parts 1
  let b ← leadingInt p1
  let p2 ← pyIndex parts 2
  let c ← leadingInt p2
  pure (a, b, c)

/-- The field-wise comparison of `api_version`s wrapper (lines 50-55):
required triple `v` against server triple `server`; any violation raises
`MastodonVersionError` naming the required version string. -/
def version_gate_core (v server : Nat × Nat × Nat) (verStr : String) : Except MErr Unit :=
  if v.1 > server.1 then
    Except.error (MErr.versionError ("Version check failed (Need version " ++ verStr ++ ")"))
  else if v.1 = server.1 ∧ v.2.1 > server.2.1 then
    Except.error (MErr.versionError ("Version check failed (Need version " ++ verStr ++ ")"))
  else if v.1 = server.1 ∧ v.2.1 = server.2.1 ∧ v.2.2 > server.2.2 then
    Except.error (MErr.versionError ("Version check failed (Need version " ++ verStr ++ ")"))
  else
    Except.ok ()

/-- The check performed by the `api_version(created_ver, last_changed_ver)`
decorator before a gated operation runs (lines 44-55): mode `"none"` skips
the check, mode `"created"` compares the introduced-in version, any other
mode (the constructor admits only `"changed"`) compares the last-changed
version. -/
def api_version_check (mode : String) (created_ver last_changed_ver : String)
    (server : Nat × Nat × Nat) : Except MErr Unit :=
  if mode ≠ "none" then
    let verStr := if mode = "created" then created_ver else last_changed_ver
    match parse_version_string verStr with
    | Except.ok v => version_gate_core v server verStr
    | Except.error e => Except.error e
  else
    Except.ok ()

/-- Lexicographic order on version triples, as the spec states it:
`(a,b,c) ≤ (x,y,z)` with equality passing. -/
def lexLe (v w : Nat × Nat × Nat) : Prop :=
  v.1 < w.1 ∨ (v.1 = w.1 ∧ (v.2.1 < w.2.1 ∨ (v.2.1 = w.2.1 ∧ v.2.2 ≤ w.2.2)))

instance lexLeDecidable (v w : Nat × Nat × Nat) : Decidable (lexLe v w) := by
  unfold lexLe
  infer_instance

theorem version_gate_core_ok_iff (v s : Nat × Nat × Nat) (verStr : String) :
    version_gate_core v s verStr = Except.ok () ↔ lexLe v s := by
  obtain ⟨a, b, c⟩ := v
  obtain ⟨x, y, z⟩ := s
  unfold version_gate_core lexLe
  dsimp only
  split_ifs with h1 h2 h3
  · exact iff_of_false (by simp) (by omega)
  · exact iff_of_false (by simp) (by omega)
  · exact iff_of_false (by simp) (by omega)
  · exact iff_of_true rfl (by omega)

theorem version_gate_core_err_iff (v s : Nat × Nat × Nat) (verStr : String) :
    version_gate_core v s verStr =
      Except.error (MErr.versionError ("Version check failed (Need version " ++ verStr ++ ")"))
      ↔ ¬ lexLe v s := by
  obtain ⟨a, b, c⟩ := v
  obtain ⟨x, y, z⟩ := s
  unfold version_gate_core lexLe
  dsimp only
  split_ifs with h1 h2 h3
  · exact iff_of_true rfl (by omega)
  · exact iff_of_true rfl (by omega)
  · exact iff_of_true rfl (by omega)
  · exact iff_of_false (by simp) (by omega)

theorem api_version_check_created_eq (crt chg : String) (s : Nat × Nat × Nat) :
    api_version_check "created" crt chg s =
      (match parse_version_string crt with
       | Except.ok v => version_gate_core v s crt
       | Except.error e => Except.error e) := rfl

theorem api_version_check_changed_eq (crt chg : String) (s : Nat × Nat × Nat) :
    api_version_check "changed" crt chg s =
      (match parse_version_string chg with
       | Except.ok v => version_gate_core v s chg
       | Except.error e => Except.error e) := rfl

/-- Claim C1: with version-check mode `"created"` (resp. `"changed"`) the
gate passes iff the parsed required triple is lexicographically at most the
server triple (equality passes), otherwise it raises
`MastodonVersionError` naming the required version; with mode `"none"` the
gate always passes. -/
theorem c1_version_gate (crt chg : String) (s vcr vch : Nat × Nat × Nat)
    (hc : parse_version_string crt = Except.ok vcr)
    (hh : parse_version_string chg = Except.ok vch) :
    (api_version_check "created" crt chg s = Except.ok () ↔ lexLe vcr s) ∧
    (api_version_check "changed" crt chg s = Except.ok () ↔ lexLe vch s) ∧
    (api_version_check "created" crt chg s =
        Except.error (MErr.versionError ("Version check failed (Need version " ++ crt ++ ")"))
      ↔ ¬ lexLe vcr s) ∧
    (api_version_check "changed" crt chg s =
        Except.error (MErr.versionError ("Version check failed (Need version " ++ chg ++ ")"))
      ↔ ¬ lexLe vch s) ∧
    api_version_check "none" crt chg s = Except.ok () := by
  simp only [api_version_check_created_eq, api_version_check_changed_eq, hc, hh]
  exact ⟨version_gate_core_ok_iff vcr s crt, version_gate_core_ok_iff vch s chg,
    version_gate_core_err_iff vcr s crt, version_gate_core_err_iff vch s chg, rfl⟩

/-- Witness for C1 at concrete inputs: required `"2.4.0"`, changed
`"2.4.3rc1"`, server `(2,4,3)`: the created-mode gate passes. -/
theorem c1_version_gate_witness :
    api_version_check "created" "2.4.0" "2.4.3rc1" (2, 4, 3) = Except.ok () :=
  ((c1_version_gate "2.4.0" "2.4.3rc1" (2, 4, 3) (2, 4, 0) (2, 4, 3) rfl rfl).1).mpr
    (by decide)

/-- The version-seeding fragment of `Mastodon.__init__` (lines 205-208):
any failure of `parse_version_string` on the caller-supplied version string
is converted to `MastodonVersionError("Bad version specified")` at
construction time. -/
def initVersionFields (mastodon_version : String) : Except MErr (Nat × Nat × Nat) :=
  match parse_version_string mastodon_version with
  | Except.ok t => Except.ok t
  | Except.error _ => Except.error (MErr.versionError "Bad version specified")

/-- Claim C9: parsing `"2.4.3rc1"` strips the non-numeric suffix and yields
`(2,4,3)`; parsing `"abc"` fails (with `ValueError` from `int("")` on the
leading component), and the constructor turns that parse failure into
`MastodonVersionError` at construction time. -/
theorem c9_parse_version_examples :
    parse_version_string "2.4.3rc1" = Except.ok (2, 4, 3) ∧
    parse_version_string "abc" = Except.error MErr.valueError ∧
    initVersionFields "abc" = Except.error (MErr.versionError "Bad version specified") :=
  ⟨rfl, rfl, rfl⟩

/-! ## AttribAccessDict (source lines 67-77)

A decoded record is a dict subclass.  Its dictionary contents and the
object's instance attribute table (the Python `__dict__` that
`super().__setattr__` writes to) are modelled as separate association
lists. -/

structure AttribRecord where
  entries : Dict
  attrs : Dict

/-- `AttribAccessDict.__setattr__`: attribute assignment to a name that is
an existing dictionary key raises `AttributeError`; any other name is
stored as a plain instance attribute, leaving the dictionary contents
untouched. -/
def attribSetattr (r : AttribRecord) (k : String) (v : JValue) : Except MErr AttribRecord :=
  if containsKey r.entries k then
    Except.error (MErr.attributeError "Attribute-style access is read only")
  else
    Except.ok { entries := r.entries, attrs := dictSet r.attrs k v }

/-- Attribute read on a record: Python finds instance attributes first and
falls back to `AttribAccessDict.__getattr__`, which serves dictionary keys
and otherwise raises `AttributeError`. -/
def attribGetattr (r : AttribRecord) (k : String) : Except MErr JValue :=
  match dictLookup r.attrs k with
  | some v => Except.ok v
  | none =>
    match dictLookup r.entries k with
    | some v => Except.ok v
    | none => Except.error (MErr.attributeError ("Attribute not found: " ++ k))

/-- Claim C10: attribute assignment to a name that is not an existing key
succeeds without raising and leaves the dictionary contents (key set and
all values) unchanged — the new name does not become a dictionary entry;
assignment to a name that is an existing key is exactly the case that
raises `AttributeError`. -/
theorem c10_setattr_policy (r : AttribRecord) (k : String) (v : JValue) :
    ((∃ a2, attribSetattr r k v = Except.ok { entries := r.entries, attrs := a2 })
      ↔ containsKey r.entries k = false) ∧
    (attribSetattr r k v = Except.error (MErr.attributeError "Attribute-style access is read only")
      ↔ containsKey r.entries k = true) := by
  unfold attribSetattr
  by_cases h : containsKey r.entries k
  · rw [if_pos h]
    refine ⟨iff_of_false ?_ (by simp [h]), iff_of_true rfl h⟩
    rintro ⟨a2, ha⟩
    exact Except.noConfusion ha
  · rw [if_neg h]
    refine ⟨iff_of_true ⟨dictSet r.attrs k v, rfl⟩ (by simpa using h), iff_of_false ?_ (by simpa using h)⟩
    intro ha
    exact Except.noConfusion ha

/-! ## Streaming worker exception policy (source lines 1716-1736)

`__stream_handle._threadproc` runs the caller-supplied listener and
catches only `AttributeError`, re-raising it unless the handle was
explicitly closed.  The listener outcome is modelled as an `Except`
value; exception types other than `AttributeError` are modelled by
`HandlerExc.other` carrying the Python type name. -/

inductive HandlerExc where
  | attributeError (msg : String)
  | other (excName : String) (msg : String)

/-- `__stream_handle._threadproc`: returns 0 on normal completion, and for
a raised exception applies the `except AttributeError` clause — swallowed
only when the handle's `closed` flag is set. -/
def threadproc (closed : Bool) (handlerOutcome : Except HandlerExc Unit) : Except HandlerExc Nat :=
  match handlerOutcome with
  | Except.ok _ => Except.ok 0
  | Except.error (HandlerExc.attributeError m) =>
    if closed then Except.ok 0 else Except.error (HandlerExc.attributeError m)
  | Except.error e => Except.error e

/-- Counterexample to claim C8: an exception that is not an
`AttributeError` (here a `ValueError`) raised by the handler strictly
after an explicit close is NOT swallowed — it propagates out of the
worker, contradicting the claim that every post-close handler exception
is swallowed. -/
theorem c8_other_exception_after_close_propagates :
    threadproc true (Except.error (HandlerExc.other "ValueError" "boom")) =
      Except.error (HandlerExc.other "ValueError" "boom") ∧
    threadproc true (Except.error (HandlerExc.other "ValueError" "boom")) ≠ Except.ok 0 :=
  ⟨rfl, fun h => Except.noConfusion h⟩

/-- Claim C8 (amended): every handler exception raised while the handle is
not closed propagates; after an explicit close, exactly `AttributeError`
(the type a read on the torn-down connection raises) is swallowed, while
exceptions of any other type still propagate. -/
theorem c8_handler_exception_policy :
    (∀ e, threadproc false (Except.error e) = Except.error e) ∧
    (∀ m, threadproc true (Except.error (HandlerExc.attributeError m)) = Except.ok 0) ∧
    (∀ nm ms, threadproc true (Except.error (HandlerExc.other nm ms)) =
      Except.error (HandlerExc.other nm ms)) :=
  ⟨fun e => by cases e <;> rfl, fun _ => rfl, fun _ _ => rfl⟩

/-! ## JSON decode hooks (source lines 1461-1507)

`requests`' JSON decoding calls `Mastodon.__json_hooks` on every decoded
object.  `dateutil.parser.parse` is modelled by a caller-supplied
`parseDate` function returning an epoch instant, `none` meaning the
library would raise. -/

def known_date_fields : List String := ["created_at", "week"]

def strnum_keys : List String :=
  ["id", "week", "in_reply_to_id", "in_reply_to_account_id", "logins", "registrations", "statuses"]

/-- `__json_strnum_to_bignum`: for each known identifier key holding a
string value, replace it by the exact integer when `int(...)` succeeds
(`ValueError` is swallowed, keeping the string). -/
def json_strnum_to_bignum (o : Dict) : Dict :=
  strnum_keys.foldl
    (fun d k =>
      match dictLookup d k with
      | some (JValue.str s) =>
        match pyInt? s.data with
        | some n => dictSet d k (JValue.int n)
        | none => d
      | _ => d)
    o

/-- The per-value body of `__json_date_parse`: an `int` (Python counts
`bool` as `int`) goes through `datetime.fromtimestamp`, everything else
through `dateutil.parser.parse`; any failure is turned into
`MastodonAPIError("Encountered invalid date.")` by the bare `except`. -/
def dateValueTransform (parseDate : String → Option Int) : JValue → Except MErr JValue
  | JValue.int n => Except.ok (JValue.date n)
  | JValue.bool b => Except.ok (JValue.date (if b then 1 else 0))
  | JValue.str s =>
    match parseDate s with
    | some t => Except.ok (JValue.date t)
    | none => Except.error (MErr.apiError "Encountered invalid date.")
  | _ => Except.error (MErr.apiError "Encountered invalid date.")

/-- `__json_date_parse`: rewrite the values of the known date keys in
place. -/
def json_date_parse (parseDate : String → Option Int) (o : Dict) : Except MErr Dict :=
  o.mapM (fun kv =>
    if kv.1 ∈ known_date_fields then do
      let v ← dateValueTransform parseDate kv.2
      pure (kv.1, v)
    else
      pure kv)

/-- `__json_allow_dict_attrs`: wrap dicts in the attribute-access view,
leave every other value alone. -/
def json_allow_dict_attrs : JValue → JValue
  | JValue.obj fields => JValue.wrapped fields
  | v => v

/-- `__json_hooks`: the object hook applied to every decoded JSON object —
identifier widening, then date parsing, then attribute-access wrapping. -/
def json_hooks (parseDate : String → Option Int) (o : Dict) : Except MErr JValue := do
  let o1 := json_strnum_to_bignum o
  let o2 ← json_date_parse parseDate o1
  pure (json_allow_dict_attrs (JValue.obj o2))

/-- Claim C6: the decode hook applied to every JSON object is exactly the
ordered, once-each composition of identifier widening, date parsing and
attribute-access wrapping; in particular the record
`{"id": "123456789012345678"}` decodes to the attribute-access view of
`{"id": 123456789012345678}` with the exact (unbounded) integer. -/
theorem c6_json_hooks_pipeline :
    (∀ (parseDate : String → Option Int) (o : Dict),
      json_hooks parseDate o =
        (json_date_parse parseDate (json_strnum_to_bignum o)).map
          (fun d => json_allow_dict_attrs (JValue.obj d))) ∧
    (∀ (parseDate : String → Option Int),
      json_hooks parseDate [("id", JValue.str "123456789012345678")] =
        Except.ok (JValue.wrapped [("id", JValue.int 123456789012345678)])) := by
  constructor
  · intro parseDate o
    unfold json_hooks
    cases h : json_date_parse parseDate (json_strnum_to_bignum o) <;>
      simp [h, Except.map, Except.bind]
  · intro parseDate
    rfl

/-! ## Pagination cursors (source lines 1326-1372 and 1640-1677)

`__api_request` records, for a sequence response with a `Link` header, a
replay descriptor on the last/first element; `fetch_next`/`fetch_previous`
consume it and issue one follow-up request.  The follow-up `__api_request`
call is reified as a returned `PendingRequest`. -/

structure PendingRequest where
  method : JValue
  endpoint : JValue
  params : Dict

/-- The argument of `fetch_next`/`fetch_previous`: either a Python list of
records (a page) or any other value, treated as a bare cursor. -/
inductive PageOrCursor where
  | page (recs : List JValue)
  | cursor (c : JValue)

/-- The capture group of `re.search(r"max_id=([0-9]*)", url)`: `none` when
`max_id=` does not occur, otherwise the (possibly empty) digit run after
its first occurrence. -/
def nextIdGroup (url : String) : Option (List Char) :=
  (findAfterL url.data ("max_id=".data)).map (fun r => r.takeWhile Char.isDigit)

/-- The capture group of `re.search(r"since_id=([0-9]*)", url)`. -/
def prevIdGroup (url : String) : Option (List Char) :=
  (findAfterL url.data ("since_id=".data)).map (fun r => r.takeWhile Char.isDigit)

/-- Lines 1650-1661: build the `_pagination_next` dict for a `rel=next`
link URL — a deep copy of the request params plus the replay method and
endpoint, with `max_id` set to the extracted integer and `since_id`
dropped.  `ok none` models a URL without the `max_id=` pattern (silently
ignored); an empty capture group makes `int` raise `ValueError`. -/
def buildNextParams (method endpoint : String) (params : Dict) (url : String) :
    Except MErr (Option Dict) :=
  match nextIdGroup url with
  | none => Except.ok none
  | some ds =>
    if ds.isEmpty then Except.error MErr.valueError
    else
      Except.ok (some (dictDel
        (dictSet
          (dictSet (dictSet params "_pagination_method" (JValue.str method))
            "_pagination_endpoint" (JValue.str endpoint))
          "max_id" (JValue.int (Int.ofNat (digitsVal ds))))
        "since_id"))

/-- Lines 1664-1676: build the `_pagination_prev` dict for a `rel=prev`
link URL (`since_id` set, `max_id` dropped). -/
def buildPrevParams (method endpoint : String) (params : Dict) (url : String) :
    Except MErr (Option Dict) :=
  match prevIdGroup url with
  | none => Except.ok none
  | some ds =>
    if ds.isEmpty then Except.error MErr.valueError
    else
      Except.ok (some (dictDel
        (dictSet
          (dictSet (dictSet params "_pagination_method" (JValue.str method))
            "_pagination_endpoint" (JValue.str endpoint))
          "since_id" (JValue.int (Int.ofNat (digitsVal ds))))
        "max_id"))

/-- `params['_pagination_method']` / `params['_pagination_endpoint']`
extraction of `fetch_next`/`fetch_previous` (lines 1342-1348): `KeyError`
when a replay key is missing, otherwise the key is read and deleted and
the remaining dict becomes the request parameters. -/
def cursorRequestDict (fs : Dict) : Except MErr PendingRequest :=
  match dictLookup fs "_pagination_method" with
  | none => Except.error (MErr.keyError "_pagination_method")
  | some m =>
    let fs1 := dictDel fs "_pagination_method"
    match dictLookup fs1 "_pagination_endpoint" with
    | none => Except.error (MErr.keyError "_pagination_endpoint")
    | some e => Except.ok { method := m, endpoint := e, params := dictDel fs1 "_pagination_endpoint" }

/-- Replaying a bare cursor value: any non-dict subscripted by a string key
raises `TypeError`. -/
def cursorRequest (c : JValue) : Except MErr PendingRequest :=
  match c with
  | JValue.obj fs => cursorRequestDict fs
  | JValue.wrapped fs => cursorRequestDict fs
  | _ => Except.error MErr.typeError

/-- Python `key in v`: key containment for dicts, substring test for
strings, membership for lists; `TypeError` for non-container values. -/
def pyContainsTest (v : JValue) (key : String) : Except MErr Bool :=
  match v with
  | JValue.obj fs => Except.ok (containsKey fs key)
  | JValue.wrapped fs => Except.ok (containsKey fs key)
  | JValue.str s => Except.ok ((findAfterL s.data key.data).isSome)
  | JValue.arr xs =>
    Except.ok (xs.any (fun x =>
      match x with
      | JValue.str t => t == key
      | _ => false))
  | _ => Except.error MErr.typeError

/-- `if key in edge: take edge[key]` on a page's edge element: the
containment test can itself raise `TypeError`; when it succeeds on a
non-dict (string/list), the subsequent string subscription raises
`TypeError`. -/
def edgeCursorLookup (v : JValue) (key : String) : Except MErr (Option JValue) :=
  match pyContainsTest v key with
  | Except.error e => Except.error e
  | Except.ok false => Except.ok none
  | Except.ok true =>
    match v with
    | JValue.obj fs =>
      (match dictLookup fs key with
       | some c => Except.ok (some c)
       | none => Except.error (MErr.keyError key))
    | JValue.wrapped fs =>
      (match dictLookup fs key with
       | some c => Except.ok (some c)
       | none => Except.error (MErr.keyError key))
    | _ => Except.error MErr.typeError

/-- `fetch_next` (lines 1326-1348).  A nonempty list reads the cursor off
its last element (returning `none` when absent); an empty list falls
through to the bare-cursor branch, where subscripting the list by a string
key raises `TypeError`; a bare cursor is replayed directly. -/
def fetch_next : PageOrCursor → Except MErr (Option PendingRequest)
  | PageOrCursor.page recs =>
    (match recs.getLast? with
     | some last =>
       (match edgeCursorLookup last "_pagination_next" with
        | Except.error e => Except.error e
        | Except.ok (some c) => (cursorRequest c).map some
        | Except.ok none => Except.ok none)
     | none => Except.error MErr.typeError)
  | PageOrCursor.cursor c => (cursorRequest c).map some

/-- `fetch_previous` (lines 1350-1372), symmetric on the first element and
`_pagination_prev`. -/
def fetch_previous : PageOrCursor → Except MErr (Option PendingRequest)
  | PageOrCursor.page recs =>
    (match recs.head? with
     | some first =>
       (match edgeCursorLookup first "_pagination_prev" with
        | Except.error e => Except.error e
        | Except.ok (some c) => (cursorRequest c).map some
        | Except.ok none => Except.ok none)
     | none => Except.error MErr.typeError)
  | PageOrCursor.cursor c => (cursorRequest c).map some

/-! ## Association-list lemmas for the dict primitives -/

@[simp] theorem containsKey_nil (k : String) : containsKey [] k = false := rfl

@[simp] theorem containsKey_cons (p : String × JValue) (d : Dict) (k : String) :
    containsKey (p :: d) k = (p.1 == k || containsKey d k) := rfl

@[simp] theorem dictLookup_nil (k : String) : dictLookup [] k = none := rfl

@[simp] theorem dictLookup_cons (p : String × JValue) (d : Dict) (k : String) :
    dictLookup (p :: d) k = if p.1 == k then some p.2 else dictLookup d k := rfl

@[simp] theorem dictSet_nil (k : String) (v : JValue) : dictSet [] k v = [(k, v)] := rfl

@[simp] theorem dictSet_cons (p : String × JValue) (d : Dict) (k : String) (v : JValue) :
    dictSet (p :: d) k v = if p.1 == k then (k, v) :: d else p :: dictSet d k v := rfl

@[simp] theorem dictDel_nil (k : String) : dictDel [] k = [] := rfl

@[simp] theorem dictDel_cons (p : String × JValue) (d : Dict) (k : String) :
    dictDel (p :: d) k = if p.1 == k then dictDel d k else p :: dictDel d k := rfl

theorem containsKey_append (a b : Dict) (k : String) :
    containsKey (a ++ b) k = (containsKey a k || containsKey b k) := by
  induction a with
  | nil => simp
  | cons p rest ih => simp [ih, Bool.or_assoc]

theorem dictDel_append (a b : Dict) (k : String) :
    dictDel (a ++ b) k = dictDel a k ++ dictDel b k := by
  induction a with
  | nil => simp
  | cons p rest ih =>
    by_cases h : (p.1 == k) = true <;> simp [h, ih]

theorem dictDel_absent (d : Dict) (k : String) (h : containsKey d k = false) :
    dictDel d k = d := by
  induction d with
  | nil => rfl
  | cons p rest ih =>
    simp only [containsKey_cons, Bool.or_eq_false_iff] at h
    simp [h.1, ih h.2]

theorem dictSet_absent (d : Dict) (k : String) (v : JValue) (h : containsKey d k = false) :
    dictSet d k v = d ++ [(k, v)] := by
  induction d with
  | nil => rfl
  | cons p rest ih =>
    simp only [containsKey_cons, Bool.or_eq_false_iff] at h
    simp [h.1, ih h.2]

theorem dictSet_append_of_contains (a b : Dict) (k : String) (v : JValue)
    (h : containsKey a k = true) :
    dictSet (a ++ b) k v = dictSet a k v ++ b := by
  induction a with
  | nil => simp at h
  | cons p rest ih =>
    by_cases hpk : (p.1 == k) = true
    · simp [hpk]
    · simp only [containsKey_cons, hpk, Bool.false_or] at h
      simp [hpk, ih h]

theorem dictSet_append_of_absent (a b : Dict) (k : String) (v : JValue)
    (h : containsKey a k = false) :
    dictSet (a ++ b) k v = a ++ dictSet b k v := by
  induction a with
  | nil => simp
  | cons p rest ih =>
    simp only [containsKey_cons, Bool.or_eq_false_iff] at h
    simp [h.1, ih h.2]

theorem dictLookup_dictSet_self (d : Dict) (k : String) (v : JValue) :
    dictLookup (dictSet d k v) k = some v := by
  induction d with
  | nil => simp
  | cons p rest ih =>
    by_cases hpk : (p.1 == k) = true <;> simp [hpk, ih]

theorem containsKey_dictSet_self (d : Dict) (k : String) (v : JValue) :
    containsKey (dictSet d k v) k = true := by
  induction d with
  | nil => simp
  | cons p rest ih =>
    by_cases hpk : (p.1 == k) = true <;> simp [hpk, ih]

theorem dictLookup_dictSet_ne (d : Dict) (k k2 : String) (v : JValue) (hne : ¬ k = k2) :
    dictLookup (dictSet d k v) k2 = dictLookup d k2 := by
  induction d with
  | nil => simp [hne]
  | cons p rest ih =>
    by_cases hpk : (p.1 == k) = true
    · have hp : p.1 = k := by simpa using hpk
      simp [hpk, hne, hp]
    · simp [hpk, ih]

theorem containsKey_dictSet_ne (d : Dict) (k k2 : String) (v : JValue) (hne : ¬ k = k2) :
    containsKey (dictSet d k v) k2 = containsKey d k2 := by
  induction d with
  | nil => simp [hne]
  | cons p rest ih =>
    by_cases hpk : (p.1 == k) = true
    · have hp : p.1 = k := by simpa using hpk
      simp [hpk, hne, hp]
    · simp [hpk, ih]

theorem dictLookup_dictDel_ne (d : Dict) (k k2 : String) (hne : ¬ k = k2) :
    dictLookup (dictDel d k) k2 = dictLookup d k2 := by
  induction d with
  | nil => simp
  | cons p rest ih =>
    by_cases hpk : (p.1 == k) = true
    · have hp : p.1 = k := by simpa using hpk
      simp [hpk, hne, hp, ih]
    · simp [hpk, ih]

theorem dictDel_comm (d : Dict) (k1 k2 : String) :
    dictDel (dictDel d k1) k2 = dictDel (dictDel d k2) k1 := by
  induction d with
  | nil => rfl
  | cons p rest ih =>
    by_cases h1 : (p.1 == k1) = true <;> by_cases h2 : (p.1 == k2) = true <;>
      simp [h1, h2, ih]

theorem containsKey_dictDel_ne (d : Dict) (k k2 : String) (hne : ¬ k = k2) :
    containsKey (dictDel d k) k2 = containsKey d k2 := by
  induction d with
  | nil => simp
  | cons p rest ih =>
    by_cases hpk : (p.1 == k) = true
    · have hp : p.1 = k := by simpa using hpk
      simp [hpk, hne, hp, ih]
    · simp [hpk, ih]

/-- Counterexample to claim C5: the empty list is a page result carrying no
cursor, yet `fetch_next` and `fetch_previous` raise `TypeError` on it — the
length-zero list fails the `isinstance(..., list) and len(...) != 0` test,
falls through to the bare-cursor branch, and the list is then subscripted
with a string key — instead of returning `None`. -/
theorem c5_empty_page_raises :
    fetch_next (PageOrCursor.page []) = Except.error MErr.typeError ∧
    fetch_previous (PageOrCursor.page []) = Except.error MErr.typeError :=
  ⟨rfl, rfl⟩

/-- Claim C5 (amended): for every nonempty sequence result whose relevant
edge record carries no `_pagination_next` / `_pagination_prev` key —
including the natural end of pagination — `fetch_next` and `fetch_previous`
return `None` rather than raising; the empty sequence is excluded (see the
counterexample: it is treated as a bare cursor and raises `TypeError`). -/
theorem c5_no_cursor_returns_none (recs recs2 : List JValue) (lastRec headRec : Dict)
    (hnext : containsKey lastRec "_pagination_next" = false)
    (hprev : containsKey headRec "_pagination_prev" = false) :
    fetch_next (PageOrCursor.page (recs ++ [JValue.wrapped lastRec])) = Except.ok none ∧
    fetch_previous (PageOrCursor.page (JValue.wrapped headRec :: recs2)) = Except.ok none := by
  constructor
  · simp only [fetch_next]
    rw [List.getLast?_concat]
    simp only [edgeCursorLookup, pyContainsTest, hnext]
  · simp only [fetch_previous, List.head?_cons, edgeCursorLookup, pyContainsTest, hprev]

/-- Witness for C5 at a concrete one-record page with no cursor metadata. -/
theorem c5_no_cursor_witness :
    fetch_next (PageOrCursor.page [JValue.wrapped [("id", JValue.int 1)]]) = Except.ok none ∧
    fetch_previous (PageOrCursor.page [JValue.wrapped [("id", JValue.int 2)]]) = Except.ok none :=
  have h := c5_no_cursor_returns_none [] [] [("id", JValue.int 1)] [("id", JValue.int 2)] rfl rfl
  ⟨h.1, h.2⟩

/-- The parameter bookkeeping of the pagination round trip: building the
`_pagination_next` dict adds the replay method/endpoint keys, sets
`max_id` and drops `since_id`; `fetch_next` then strips the two replay
keys again.  Provided the original request parameters do not themselves
use the two reserved replay keys, the request parameters that are
replayed are exactly the original ones with `max_id` set and `since_id`
removed. -/
theorem paginationParamsRoundTrip (params : Dict) (M E N : JValue)
    (hm : containsKey params "_pagination_method" = false)
    (he : containsKey params "_pagination_endpoint" = false) :
    dictDel (dictDel (dictDel
        (dictSet (dictSet (dictSet params "_pagination_method" M) "_pagination_endpoint" E)
          "max_id" N) "since_id") "_pagination_method") "_pagination_endpoint" =
      dictDel (dictSet params "max_id" N) "since_id" := by
  have d1 : (("_pagination_method" : String) == "_pagination_endpoint") = false := by decide
  have d2 : (("_pagination_method" : String) == "since_id") = false := by decide
  have d3 : (("_pagination_endpoint" : String) == "since_id") = false := by decide
  have d4 : (("_pagination_method" : String) == "max_id") = false := by decide
  have d5 : (("_pagination_endpoint" : String) == "max_id") = false := by decide
  have d6 : (("max_id" : String) == "since_id") = false := by decide
  have d7 : (("_pagination_endpoint" : String) == "_pagination_method") = false := by decide
  have d8 : (("max_id" : String) == "_pagination_method") = false := by decide
  have d9 : (("max_id" : String) == "_pagination_endpoint") = false := by decide
  have hpe : containsKey (params ++ [("_pagination_method", M)]) "_pagination_endpoint" = false := by
    rw [containsKey_append, he]
    simp [d1]
  have hB : dictSet (dictSet params "_pagination_method" M) "_pagination_endpoint" E
      = params ++ [("_pagination_method", M), ("_pagination_endpoint", E)] := by
    rw [dictSet_absent _ _ _ hm, dictSet_absent _ _ _ hpe, List.append_assoc]
    rfl
  rw [hB]
  by_cases hq : containsKey params "max_id" = true
  · rw [dictSet_append_of_contains _ _ _ _ hq]
    rw [dictDel_append, dictDel_append, dictDel_append]
    have c1 : containsKey (dictDel (dictSet params "max_id" N) "since_id") "_pagination_method"
        = false := by
      rw [containsKey_dictDel_ne _ _ _ (by decide), containsKey_dictSet_ne _ _ _ _ (by decide)]
      exact hm
    have c2 : containsKey (dictDel (dictSet params "max_id" N) "since_id")
        "_pagination_endpoint" = false := by
      rw [containsKey_dictDel_ne _ _ _ (by decide), containsKey_dictSet_ne _ _ _ _ (by decide)]
      exact he
    rw [dictDel_absent _ _ c1]
    simp [d2, d3, d1, d7, dictDel_absent _ _ c2]
  · have hq2 : containsKey params "max_id" = false := by simpa using hq
    rw [dictSet_append_of_absent _ _ _ _ hq2]
    have hsuffix : dictSet [("_pagination_method", M), ("_pagination_endpoint", E)] "max_id" N
        = [("_pagination_method", M), ("_pagination_endpoint", E), ("max_id", N)] := by
      simp [d4, d5]
    rw [hsuffix, dictDel_append, dictDel_append, dictDel_append]
    have c1 : containsKey (dictDel params "since_id") "_pagination_method" = false := by
      rw [containsKey_dictDel_ne _ _ _ (by decide)]
      exact hm
    have c2 : containsKey (dictDel params "since_id") "_pagination_endpoint" = false := by
      rw [containsKey_dictDel_ne _ _ _ (by decide)]
      exact he
    rw [dictDel_absent _ _ c1]
    rw [dictSet_absent _ _ _ hq2, dictDel_append]
    simp [d2, d3, d6, d1, d7, d8, d9, dictDel_absent _ _ c2]

/-- Claim C4: a sequence result whose last element carries a
`_pagination_next` cursor (as recorded by the engine from a `rel=next`
link URL containing `max_id=<digits>`), passed to `fetch_next`, issues
exactly one request with the cursor's recorded HTTP method and endpoint,
and with parameters equal to the original request's parameters except
that `max_id` is set (added or replaced) to the integer extracted from
the link URL and any `since_id` key is removed.  The two hypotheses on
`params` say that the caller's parameters do not use the reserved
`_pagination_method` / `_pagination_endpoint` replay keys. -/
theorem c4_fetch_next_request (m e url : String) (params rec : Dict) (recs : List JValue)
    (ds : List Char) (np : Dict)
    (hgrp : nextIdGroup url = some ds)
    (hds : ds.isEmpty = false)
    (hbuild : buildNextParams m e params url = Except.ok (some np))
    (hm : containsKey params "_pagination_method" = false)
    (he : containsKey params "_pagination_endpoint" = false) :
    fetch_next (PageOrCursor.page
        (recs ++ [JValue.wrapped (dictSet rec "_pagination_next" (JValue.obj np))])) =
      Except.ok (some (PendingRequest.mk (JValue.str m) (JValue.str e)
        (dictDel (dictSet params "max_id" (JValue.int (Int.ofNat (digitsVal ds)))) "since_id"))) := by
  simp only [buildNextParams, hgrp, hds, Bool.false_eq_true, if_false,
    Except.ok.injEq, Option.some.injEq] at hbuild
  subst hbuild
  have lpm : dictLookup (dictDel
      (dictSet (dictSet (dictSet params "_pagination_method" (JValue.str m))
          "_pagination_endpoint" (JValue.str e))
        "max_id" (JValue.int (Int.ofNat (digitsVal ds)))) "since_id") "_pagination_method"
      = some (JValue.str m) := by
    rw [dictLookup_dictDel_ne _ _ _ (by decide), dictLookup_dictSet_ne _ _ _ _ (by decide),
      dictLookup_dictSet_ne _ _ _ _ (by decide)]
    exact dictLookup_dictSet_self _ _ _
  have lpe : dictLookup (dictDel (dictDel
      (dictSet (dictSet (dictSet params "_pagination_method" (JValue.str m))
          "_pagination_endpoint" (JValue.str e))
        "max_id" (JValue.int (Int.ofNat (digitsVal ds)))) "since_id") "_pagination_method")
      "_pagination_endpoint" = some (JValue.str e) := by
    rw [dictLookup_dictDel_ne _ _ _ (by decide), dictLookup_dictDel_ne _ _ _ (by decide),
      dictLookup_dictSet_ne _ _ _ _ (by decide)]
    exact dictLookup_dictSet_self _ _ _
  simp only [fetch_next]
  rw [List.getLast?_concat]
  simp only [edgeCursorLookup, pyContainsTest, containsKey_dictSet_self,
    dictLookup_dictSet_self, cursorRequest, cursorRequestDict, lpm, lpe, Except.map]
  rw [paginationParamsRoundTrip params (JValue.str m) (JValue.str e)
    (JValue.int (Int.ofNat (digitsVal ds))) hm he]

/-- Witness for C4 at a concrete page, link URL and parameter set. -/
theorem c4_fetch_next_witness :
    fetch_next (PageOrCursor.page
        [JValue.wrapped (dictSet [("id", JValue.int 1)] "_pagination_next" (JValue.obj
          [("limit", JValue.int 20),
           ("_pagination_method", JValue.str "GET"),
           ("_pagination_endpoint", JValue.str "/api/v1/timelines/home"),
           ("max_id", JValue.int 1234)]))]) =
      Except.ok (some (PendingRequest.mk (JValue.str "GET") (JValue.str "/api/v1/timelines/home")
        (dictDel (dictSet [("limit", JValue.int 20), ("since_id", JValue.int 5)]
          "max_id" (JValue.int (Int.ofNat (digitsVal ['1', '2', '3', '4'])))) "since_id"))) :=
  c4_fetch_next_request "GET" "/api/v1/timelines/home"
    "https://mastodon.social/api/v1/timelines/home?max_id=1234&limit=20"
    [("limit", JValue.int 20), ("since_id", JValue.int 5)] [("id", JValue.int 1)] []
    ['1', '2', '3', '4']
    [("limit", JValue.int 20),
     ("_pagination_method", JValue.str "GET"),
     ("_pagination_endpoint", JValue.str "/api/v1/timelines/home"),
     ("max_id", JValue.int 1234)]
    rfl rfl rfl rfl rfl

/-! ## Rate limiter and request engine (source lines 1509-1679)

Wall-clock instants and durations are `Rat`.  The network is a scripted
list of `Response` values: attempt `i` of the retry loop consumes entry
`i`.  All `time.time()` readings during the processing of one response
are modelled by that response's single `now` instant; the reading taken
before the loop (for the `pace` pre-sleep) is the separate `now0`
argument.  `time.sleep(x)` is recorded as `x` in the returned trace. -/

inductive RLMethod where
  | throw
  | wait
  | pace
deriving DecidableEq

structure RLConfig where
  method : RLMethod
  pacefactor : Rat

/-- The client's rate-limit bookkeeping fields
(`ratelimit_remaining`, `ratelimit_limit`, `ratelimit_reset`,
`ratelimit_lastcall`). -/
structure RLState where
  remaining : Nat
  limit : Nat
  reset : Rat
  lastcall : Rat

/-- The rate-limit response headers when `X-RateLimit-Remaining` is
present: `reset` is the parsed `X-RateLimit-Reset` epoch (`none` models a
value `dateutil` fails to parse), `date` the parsed server `Date` header
(`none` models an absent header). -/
structure RLHeaders where
  remaining : Nat
  limit : Nat
  reset : Option Rat
  date : Option Rat

/-- One scripted HTTP exchange: status code, optional rate-limit headers,
the JSON-decoded body (`none` models a body `.json()` rejects with
`ValueError`), the parsed `Link` header relations as (rel, url) pairs
(`[]` models an absent or empty header), and the local clock reading
while this response is processed. -/
structure Response where
  status : Nat
  rl : Option RLHeaders
  body : Option JValue
  links : List (String × String)
  now : Rat

/-- The `pace`-mode pre-call sleeps (lines 1516-1533), recorded as a trace.
Only `pace` with rate limiting enabled ever sleeps here; each sleep is
clamped to 5 minutes. -/
def paceSleep (cfg : RLConfig) (doRL : Bool) (st : RLState) (now : Rat) : List Rat :=
  if doRL = true ∧ cfg.method = RLMethod.pace then
    if st.remaining = 0 then
      let toNext := st.reset - now
      if toNext > 0 then [min toNext 300] else []
    else
      let timeWaited := now - st.lastcall
      let timeWait := (st.reset - now) / (st.remaining : Rat)
      let remainingWait := timeWait - timeWaited
      if remainingWait > 0 then [min (remainingWait / cfg.pacefactor) 300] else []
  else
    []

/-- Rate-limit header bookkeeping (lines 1567-1584): when the headers are
present and rate limiting is enabled, overwrite remaining/limit, and
recompute the absolute reset instant corrected by the local/server clock
difference (`lastcall` is refreshed only when a `Date` header is
present).  An unparseable reset header raises `MastodonRatelimitError`. -/
def updateRL (doRL : Bool) (st : RLState) (r : Response) : Except MErr RLState :=
  match r.rl with
  | some h =>
    if doRL then
      let st1 : RLState := { st with remaining := h.remaining, limit := h.limit }
      match h.reset with
      | none => Except.error (MErr.ratelimitError "Rate limit time calculations failed")
      | some resetEpoch =>
        match h.date with
        | some serverTime =>
          Except.ok { st1 with reset := resetEpoch + (r.now - serverTime), lastcall := r.now }
        | none => Except.ok { st1 with reset := resetEpoch }
    else
      Except.ok st
  | none => Except.ok st

/-- Python truthiness of the decoded error message (`if not error_msg`). -/
def pyFalsy : Option JValue → Bool
  | none => true
  | some JValue.null => true
  | some (JValue.bool b) => !b
  | some (JValue.int n) => n == 0
  | some (JValue.str s) => s.isEmpty
  | some (JValue.arr xs) => xs.isEmpty
  | some (JValue.obj fs) => fs.isEmpty
  | some (JValue.wrapped fs) => fs.isEmpty
  | some (JValue.date _) => false

/-- Lines 1592-1599: recover a human-readable message from a non-success
body.  A body that is not JSON (`ValueError`) yields no message; but note
that line 1597 reads `response['error']` unconditionally, so a JSON dict
without an `error` key raises `KeyError` and a non-dict JSON body raises
`TypeError`, both escaping the engine. -/
def computeErrMsg (body : Option JValue) : Except MErr (Option JValue) :=
  match body with
  | none => Except.ok none
  | some (JValue.obj fs) =>
    (match dictLookup fs "error" with
     | some msgv => Except.ok (some msgv)
     | none => Except.error (MErr.keyError "error"))
  | some (JValue.wrapped fs) =>
    (match dictLookup fs "error" with
     | some msgv => Except.ok (some msgv)
     | none => Except.error (MErr.keyError "error"))
  | some _ => Except.error MErr.typeError

/-- Lines 1614-1630: the status-specific exception for a non-success,
non-retried response. -/
def statusError (status : Nat) (errMsg : Option JValue) : MErr :=
  if status = 404 then
    MErr.notFoundError status
      (if pyFalsy errMsg then some (JValue.str "Endpoint not found.") else errMsg)
  else if status = 401 then
    MErr.unauthorizedError status errMsg
  else
    MErr.apiStatusError status errMsg

/-- Line 1662 / 1676: write a pagination dict onto the last element of the
response list (`response[-1]` raises `IndexError` on an empty list, and
item assignment needs a dict element). -/
def setLastRec (recs : List JValue) (key : String) (np : Dict) : Except MErr (List JValue) :=
  match recs.getLast? with
  | none => Except.error MErr.indexError
  | some (JValue.wrapped fs) =>
    Except.ok (recs.dropLast ++ [JValue.wrapped (dictSet fs key (JValue.obj np))])
  | some (JValue.obj fs) =>
    Except.ok (recs.dropLast ++ [JValue.obj (dictSet fs key (JValue.obj np))])
  | some _ => Except.error MErr.typeError

/-- `response[0]` counterpart of `setLastRec`. -/
def setFirstRec (recs : List JValue) (key : String) (np : Dict) : Except MErr (List JValue) :=
  match recs with
  | [] => Except.error MErr.indexError
  | JValue.wrapped fs :: rest => Except.ok (JValue.wrapped (dictSet fs key (JValue.obj np)) :: rest)
  | JValue.obj fs :: rest => Except.ok (JValue.obj (dictSet fs key (JValue.obj np)) :: rest)
  | _ :: _ => Except.error MErr.typeError

/-- One entry of the parsed `Link` header (lines 1646-1676): `rel=next`
and `rel=prev` attach a cursor when the URL matches the id pattern, any
other rel is skipped. -/
def attachOne (method endpoint : String) (params : Dict) (recs : List JValue)
    (link : String × String) : Except MErr (List JValue) :=
  if link.1 = "next" then
    match buildNextParams method endpoint params link.2 with
    | Except.error e => Except.error e
    | Except.ok none => Except.ok recs
    | Except.ok (some np) => setLastRec recs "_pagination_next" np
  else if link.1 = "prev" then
    match buildPrevParams method endpoint params link.2 with
    | Except.error e => Except.error e
    | Except.ok none => Except.ok recs
    | Except.ok (some pp) => setFirstRec recs "_pagination_prev" pp
  else
    Except.ok recs

/-- Lines 1640-1677: pagination cursors are attached only to list-valued
responses and only when a `Link` header is present and nonempty. -/
def attachPagination (method endpoint : String) (params : Dict)
    (links : List (String × String)) (v : JValue) : Except MErr JValue :=
  match v with
  | JValue.arr recs =>
    if links.isEmpty then Except.ok (JValue.arr recs)
    else (links.foldlM (attachOne method endpoint params) recs).map JValue.arr
  | other => Except.ok other

/-- The `while not request_complete` loop of `__api_request` (lines
1545-1679), one scripted response per attempt.  Returns the recorded
sleep trace and the outcome.  Running out of scripted responses while a
retry is pending yields the model-artefact `noMoreResponses`. -/
def apiRequestLoop (cfg : RLConfig) (doRL : Bool) (method endpoint : String) (params : Dict) :
    RLState → List Response → List Rat × Except MErr JValue
  | _, [] => ([], Except.error MErr.noMoreResponses)
  | st, r :: rest =>
    match updateRL doRL st r with
    | Except.error e => ([], Except.error e)
    | Except.ok st2 =>
      if r.status < 400 then
        match r.body with
        | none => ([], Except.error (MErr.apiError "Could not parse response as JSON"))
        | some v => ([], attachPagination method endpoint params r.links v)
      else
        match computeErrMsg r.body with
        | Except.error e => ([], Except.error e)
        | Except.ok em =>
          if r.status = 429 then
            if cfg.method = RLMethod.throw ∨ doRL = false then
              ([], Except.error (MErr.ratelimitError "Hit rate limit."))
            else
              -- wait / pace with rate limiting enabled
              let toNext := st2.reset - r.now
              if toNext > 0 then
                let out := apiRequestLoop cfg doRL method endpoint params st2 rest
                (min toNext 300 :: out.1, out.2)
              else
                ([], Except.error (statusError r.status em))
          else
            ([], Except.error (statusError r.status em))

/-- `__api_request` (lines 1509-1679): the `pace` pre-sleep followed by
the request/retry loop. -/
def apiRequest (cfg : RLConfig) (doRL : Bool) (method endpoint : String) (params : Dict)
    (st : RLState) (now0 : Rat) (responses : List Response) :
    List Rat × Except MErr JValue :=
  let pre := paceSleep cfg doRL st now0
  let out := apiRequestLoop cfg doRL method endpoint params st responses
  (pre ++ out.1, out.2)

/-- Counterexample to claim C2: with `ratelimit_method="throw"` and the
tracked remaining-count at 0, a call whose response is successful does
NOT raise `MastodonRatelimitError` — the engine never consults the local
remaining-count under `throw`; it issues the request and returns the
decoded body, with zero sleep. -/
theorem c2_throw_remaining_zero_succeeds :
    apiRequest (RLConfig.mk RLMethod.throw 1) true "GET" "/api/v1/timelines/home" []
      (RLState.mk 0 300 0 0) 0
      [Response.mk 200 none (some (JValue.int 7)) [] 0] =
    ([], Except.ok (JValue.int 7)) := rfl

/-- Claim C2 (amended): under `ratelimit_method="throw"` a call never
sleeps, and `MastodonRatelimitError` is raised exactly when the server
answers HTTP 429 — irrespective of the tracked remaining-count, which is
never consulted before the request (a call with remaining = 0 whose
response is successful completes normally, see the counterexample). -/
theorem c2_throw_429_raises_no_sleep (pf : Rat) (doRL : Bool) (method endpoint : String)
    (params : Dict) (st st2 : RLState) (now0 : Rat) (r : Response) (rest : List Response)
    (em : Option JValue)
    (h429 : r.status = 429)
    (hup : updateRL doRL st r = Except.ok st2)
    (hmsg : computeErrMsg r.body = Except.ok em) :
    apiRequest (RLConfig.mk RLMethod.throw pf) doRL method endpoint params st now0 (r :: rest) =
      ([], Except.error (MErr.ratelimitError "Hit rate limit.")) := by
  unfold apiRequest
  have hps : paceSleep (RLConfig.mk RLMethod.throw pf) doRL st now0 = [] := by
    unfold paceSleep
    rw [if_neg]
    rintro ⟨-, hm⟩
    simp at hm
  rw [hps]
  simp only [apiRequestLoop, hup]
  rw [h429]
  simp only [show ¬ (429 < 400) by decide, if_false, hmsg]
  simp

/-- Witness for the amended C2 at a concrete 429 exchange with
remaining = 0. -/
theorem c2_throw_429_witness :
    apiRequest (RLConfig.mk RLMethod.throw 1) true "GET" "/api/v1/timelines/home" []
      (RLState.mk 0 300 0 0) 0 [Response.mk 429 none none [] 0] =
      ([], Except.error (MErr.ratelimitError "Hit rate limit.")) :=
  c2_throw_429_raises_no_sleep 1 true "GET" "/api/v1/timelines/home" []
    (RLState.mk 0 300 0 0) (RLState.mk 0 300 0 0) 0 (Response.mk 429 none none [] 0) [] none
    rfl rfl rfl

/-- Counterexample to claim C3: under `wait` with rate limiting enabled,
a 429 response whose tracked reset instant is not in the future is NOT
slept on and NOT retried — the engine falls through and raises a generic
`MastodonAPIError` carrying status 429, leaving the second scripted
response unconsumed. -/
theorem c3_wait_past_reset_no_retry :
    apiRequest (RLConfig.mk RLMethod.wait 1) true "GET" "/api/v1/timelines/home" []
      (RLState.mk 0 300 0 0) 100
      [Response.mk 429 none none [] 100, Response.mk 200 none (some (JValue.int 7)) [] 101] =
    ([], Except.error (MErr.apiStatusError 429 none)) := by
  norm_num [apiRequest, apiRequestLoop, paceSleep, updateRL, computeErrMsg, statusError,
    show RLMethod.wait ≠ RLMethod.throw from by decide]

/-- Claim C3 (amended): on an HTTP 429 response, under `throw` — or
whenever rate limiting was disabled for the call — the engine raises
`MastodonRatelimitError` immediately with no sleep; under `wait`/`pace`
with rate limiting enabled it sleeps the delay until the tracked reset
instant clamped to at most 300 seconds and retries the same request
(repeating this treatment on every further 429), but only when that
delay is positive — a 429 whose tracked reset instant is not in the
future is raised as a generic `MastodonAPIError` without sleeping or
retrying (see the counterexample). -/
theorem c3_429_handling (cfg : RLConfig) (doRL : Bool) (method endpoint : String)
    (params : Dict) (st st2 : RLState) (r : Response) (rest : List Response)
    (em : Option JValue)
    (h429 : r.status = 429)
    (hup : updateRL doRL st r = Except.ok st2)
    (hmsg : computeErrMsg r.body = Except.ok em) :
    apiRequestLoop cfg doRL method endpoint params st (r :: rest) =
      (if cfg.method = RLMethod.throw ∨ doRL = false then
        ([], Except.error (MErr.ratelimitError "Hit rate limit."))
      else if st2.reset - r.now > 0 then
        (min (st2.reset - r.now) 300
            :: (apiRequestLoop cfg doRL method endpoint params st2 rest).1,
          (apiRequestLoop cfg doRL method endpoint params st2 rest).2)
      else
        ([], Except.error (MErr.apiStatusError 429 em))) := by
  have hse : statusError 429 em = MErr.apiStatusError 429 em := by
    unfold statusError
    rw [if_neg (by decide), if_neg (by decide)]
  simp only [apiRequestLoop, hup]
  rw [h429]
  simp only [show ¬ (429 < 400) by decide, if_false, hmsg]
  simp [hse]

/-- Witness for the amended C3: a concrete `wait`-mode 429 whose headers
put the reset 100 seconds in the future — one sleep of 100 seconds, then
a retry that succeeds on the second scripted response. -/
theorem c3_429_handling_witness :
    apiRequestLoop (RLConfig.mk RLMethod.wait 1) true "GET" "/api/v1/timelines/home" []
      (RLState.mk 0 300 0 0)
      [Response.mk 429 (some (RLHeaders.mk 0 300 (some 100) (some 0))) none [] 0,
       Response.mk 200 none (some (JValue.int 3)) [] 5] =
      ([100], Except.ok (JValue.int 3)) :=
  (c3_429_handling (RLConfig.mk RLMethod.wait 1) true "GET" "/api/v1/timelines/home" []
    (RLState.mk 0 300 0 0) (RLState.mk 0 300 100 0)
    (Response.mk 429 (some (RLHeaders.mk 0 300 (some 100) (some 0))) none [] 0)
    [Response.mk 200 none (some (JValue.int 3)) [] 5] none
    rfl (by norm_num [updateRL]) rfl).trans
    (by norm_num [apiRequestLoop, updateRL, attachPagination,
      show RLMethod.wait ≠ RLMethod.throw from by decide])

/-! ## Streaming endpoint resolution (source lines 1689-1711)

`urlparse` is modelled for the scheme/netloc split the source uses: the
scheme is the part before the first `"://"`, the netloc the host part
after it (up to the first `/`, `?` or `#`). -/

/-- Split `s` around the first occurrence of `pat`. -/
def splitFirstL (pat : List Char) : List Char → Option (List Char × List Char)
  | [] =>
    (match dropPrefixL [] pat with
     | some r => some ([], r)
     | none => none)
  | c :: rest =>
    (match dropPrefixL (c :: rest) pat with
     | some r => some ([], r)
     | none => (splitFirstL pat rest).map (fun pr => (c :: pr.1, pr.2)))

/-- `urlparse(url).scheme` for the URL shapes the source handles (empty
when no `"://"` separator is present, in which case the wss/ws tests fail
just as with `urlparse`). -/
def urlScheme (url : String) : String :=
  match splitFirstL ("://".data) url.data with
  | some pr => String.mk pr.1
  | none => ""

/-- `urlparse(url).netloc` for the same URL shapes: the characters after
`"://"` up to the first path/query/fragment delimiter. -/
def urlNetloc (url : String) : String :=
  match splitFirstL ("://".data) url.data with
  | some pr => String.mk (pr.2.takeWhile (fun c => c ≠ '/' ∧ c ≠ '?' ∧ c ≠ '#'))
  | none => ""

/-- Lines 1706-1708: the streaming server cannot handle a double slash,
so one trailing slash is dropped. -/
def stripTrailingSlash (s : String) : String :=
  match s.data.getLast? with
  | some '/' => String.mk s.data.dropLast
  | _ => s

/-- Lines 1689-1704: the streaming base URL.  When the instance info
advertises a `streaming_api` URL different from the REST base, its
scheme is rewritten (`wss` to `https`, `ws` to `http`) keeping the
netloc; any other scheme raises `MastodonAPIError`. -/
def streamResolveBase (streamingApi : Option String) (apiBase : String) : Except MErr String :=
  match streamingApi with
  | some sa =>
    if sa ≠ apiBase then
      if urlScheme sa = "wss" then
        Except.ok ("https://" ++ urlNetloc sa)
      else if urlScheme sa = "ws" then
        Except.ok ("http://" ++ urlNetloc sa)
      else
        Except.error (MErr.apiError
          ("Could not parse streaming api location returned from server: " ++ sa ++ "."))
    else
      Except.ok apiBase
  | none => Except.ok apiBase

/-- The URL the streaming GET of line 1711 connects to: resolved base,
with a trailing slash stripped, plus the endpoint path. -/
def streamConnectUrl (streamingApi : Option String) (apiBase endpoint : String) :
    Except MErr String :=
  match streamResolveBase streamingApi apiBase with
  | Except.ok u => Except.ok (stripTrailingSlash u ++ endpoint)
  | Except.error e => Except.error e

/-- Claim C7: when the advertised streaming URL differs from the REST
base, a `wss` scheme is rewritten to `https` and a `ws` scheme to `http`
(keeping the host), the connection targeting the rewritten base plus the
endpoint path; any other scheme raises `MastodonAPIError`.  Concretely,
an advertised `wss://stream.example/` leads to a connection to
`https://stream.example/api/v1/streaming/user` for the user-stream
endpoint. -/
theorem c7_stream_url_resolution (sa apiBase endpoint : String) (hne : sa ≠ apiBase) :
    (urlScheme sa = "wss" →
      streamConnectUrl (some sa) apiBase endpoint =
        Except.ok (stripTrailingSlash ("https://" ++ urlNetloc sa) ++ endpoint)) ∧
    (urlScheme sa = "ws" →
      streamConnectUrl (some sa) apiBase endpoint =
        Except.ok (stripTrailingSlash ("http://" ++ urlNetloc sa) ++ endpoint)) ∧
    (¬ urlScheme sa = "wss" → ¬ urlScheme sa = "ws" →
      streamConnectUrl (some sa) apiBase endpoint =
        Except.error (MErr.apiError
          ("Could not parse streaming api location returned from server: " ++ sa ++ "."))) ∧
    streamConnectUrl (some "wss://stream.example/") "https://mastodon.social"
        "/api/v1/streaming/user" =
      Except.ok "https://stream.example/api/v1/streaming/user" := by
  refine ⟨?_, ?_, ?_, rfl⟩
  · intro h
    unfold streamConnectUrl streamResolveBase
    dsimp only
    rw [if_pos hne, if_pos h]
  · intro h
    unfold streamConnectUrl streamResolveBase
    dsimp only
    rw [if_pos hne, if_neg (by rw [h]; decide), if_pos h]
  · intro h1 h2
    unfold streamConnectUrl streamResolveBase
    dsimp only
    rw [if_pos hne, if_neg h1, if_neg h2]

/-- Witness for C7 at a second concrete advertised URL. -/
theorem c7_stream_url_witness :
    streamConnectUrl (some "wss://other.example") "https://mastodon.social"
        "/api/v1/streaming/public" =
      Except.ok "https://other.example/api/v1/streaming/public" :=
  ((c7_stream_url_resolution "wss://other.example" "https://mastodon.social"
    "/api/v1/streaming/public" (by decide)).1 rfl).trans (by rfl)
